import Mathlib

/-!
Verification of the `skills` repository's two accessibility scripts:

* `skills/accessible-web-dev/scripts/contrast_checker.py`
  (`ColorContrastChecker`: `parse_color`, `get_relative_luminance`,
  `get_contrast_ratio`, `check_wcag_compliance`)
* `skills/accessible-web-dev/scripts/accessibility_audit.py`
  (`AccessibilityAuditor` and its ten rule methods, plus `audit_file`).

The Python code is shallowly embedded: Python strings are Lean `String`s
(sequences of characters, treated over their ASCII fragment), floats are
modelled as real numbers, fallible parsing returns `Option`, the auditor's
only mutable state (`self.issues`, `self.wcag_level`) is threaded
explicitly.  All string primitives (`strip`, `lower`, the regexes used by
`parse_color`) are implemented directly on `List Char`.
-/

/-! ## Character and string primitives (Python `str` methods, ASCII fragment) -/

/-- Code point of a character. -/
def cn (c : Char) : Nat := c.toNat

/-- Python whitespace (`str.strip` / regex `\s`), ASCII fragment:
space, tab, newline, carriage return, vertical tab, form feed. -/
def isPySpace (c : Char) : Bool :=
  cn c = 32 || cn c = 9 || cn c = 10 || cn c = 13 || cn c = 11 || cn c = 12

/-- ASCII decimal digit (regex `\d`, ASCII fragment). -/
def isDigitCh (c : Char) : Bool := 48 ≤ cn c && cn c ≤ 57

/-- Lower-case hexadecimal digit, the character class `[0-9a-f]` used by the
hex regexes in `parse_color`. -/
def isLowHex (c : Char) : Bool := isDigitCh c || (97 ≤ cn c && cn c ≤ 102)

/-- Hexadecimal digit in either case (`0-9`, `a-f`, `A-F`). -/
def isHexChar (c : Char) : Bool :=
  isLowHex c || ['A', 'B', 'C', 'D', 'E', 'F'].contains c

/-- Python `str.lower` on one character (ASCII fragment). -/
def pyLowerChar (c : Char) : Char :=
  if 65 ≤ cn c ∧ cn c ≤ 90 then Char.ofNat (cn c + 32) else c

/-- Python `str.lower` (ASCII fragment). -/
def pyLower (l : List Char) : List Char := l.map pyLowerChar

/-- Python `str.lstrip`. -/
def lstrip (l : List Char) : List Char := l.dropWhile isPySpace

/-- Python `str.rstrip`. -/
def rstrip (l : List Char) : List Char := (l.reverse.dropWhile isPySpace).reverse

/-- Python `str.strip`. -/
def pyStrip (l : List Char) : List Char := rstrip (lstrip l)

/-- Value of a (lower-case) hexadecimal digit. -/
def hexVal (c : Char) : Nat := if isDigitCh c then cn c - 48 else cn c - 97 + 10

/-- Value of a hexadecimal digit of either case, as `parse_color` reads it
after `str.lower` has been applied. -/
def hexDigitVal (c : Char) : Nat := hexVal (pyLowerChar c)

/-- Decimal value of a digit string (Python `int`). -/
def natOfDigits (l : List Char) : Nat := l.foldl (fun a c => 10 * a + (cn c - 48)) 0

/-! ## `ColorContrastChecker.parse_color` -/

/-- The `NAMED_COLORS` table of `ColorContrastChecker` (contrast_checker.py,
lines 37-57), keys and values as character lists.  The values are kept in the
source's upper-case spelling, which matters downstream because the hex regex
is matched after `str.lower` has already run. -/
def NAMED_COLORS : List (List Char × List Char) := [
  ("white".data, "#FFFFFF".data),
  ("black".data, "#000000".data),
  ("red".data, "#FF0000".data),
  ("green".data, "#008000".data),
  ("blue".data, "#0000FF".data),
  ("yellow".data, "#FFFF00".data),
  ("cyan".data, "#00FFFF".data),
  ("magenta".data, "#FF00FF".data),
  ("gray".data, "#808080".data),
  ("grey".data, "#808080".data),
  ("silver".data, "#C0C0C0".data),
  ("maroon".data, "#800000".data),
  ("olive".data, "#808000".data),
  ("lime".data, "#00FF00".data),
  ("aqua".data, "#00FFFF".data),
  ("teal".data, "#008080".data),
  ("navy".data, "#000080".data),
  ("fuchsia".data, "#FF00FF".data),
  ("purple".data, "#800080".data)]

/-- `color_str in NAMED_COLORS` / `NAMED_COLORS[color_str]`. -/
def namedLookup (t : List Char) : Option (List Char) :=
  (NAMED_COLORS.find? (fun p => p.1 == t)).map (·.2)

/-- Body of the regex `([0-9a-f]{6})` matched at the start of the string:
six lower-case hex digits, anything may follow (`re.match` only anchors at
the start). -/
def hex6 (l : List Char) : Option (Nat × Nat × Nat) :=
  match l with
  | a :: b :: c :: d :: e :: f :: _ =>
    if isLowHex a && isLowHex b && isLowHex c && isLowHex d && isLowHex e && isLowHex f then
      some (16 * hexVal a + hexVal b, 16 * hexVal c + hexVal d, 16 * hexVal e + hexVal f)
    else none
  | _ => none

/-- `re.match(r'#?([0-9a-f]{6})', s)` with the decoding of lines 74-78. -/
def hexMatch (l : List Char) : Option (Nat × Nat × Nat) :=
  if l.head? = some '#' then hex6 l.tail else hex6 l

/-- Body of `([0-9a-f])([0-9a-f])([0-9a-f])$`: exactly three lower-case hex
digits up to the end of the string; each digit is doubled (`int(r+r, 16)`
equals `17 * hexVal r`). -/
def shortHex3 (l : List Char) : Option (Nat × Nat × Nat) :=
  match l with
  | [a, b, c] =>
    if isLowHex a && isLowHex b && isLowHex c then
      some (17 * hexVal a, 17 * hexVal b, 17 * hexVal c)
    else none
  | _ => none

/-- `re.match(r'#?([0-9a-f])([0-9a-f])([0-9a-f])$', s)`. -/
def shortHexMatch (l : List Char) : Option (Nat × Nat × Nat) :=
  if l.head? = some '#' then shortHex3 l.tail else shortHex3 l

/-- Consume one expected literal character. -/
def expectChar (c : Char) : List Char → Option (List Char)
  | x :: l => if x = c then some l else none
  | [] => none

/-- `\s*`: greedily consume whitespace. -/
def skipWs (l : List Char) : List Char := l.dropWhile isPySpace

/-- `(\d+)`: greedily consume one or more decimal digits and return their
value. -/
def digits1 (l : List Char) : Option (Nat × List Char) :=
  let ds := l.takeWhile isDigitCh
  if ds.isEmpty then none else some (natOfDigits ds, l.dropWhile isDigitCh)

/-- `re.match(r'rgb\s*\(\s*(\d+)\s*,\s*(\d+)\s*,\s*(\d+)\s*\)', s)`
(contrast_checker.py line 87).  `re.match` anchors only at the start, so
anything may follow the closing parenthesis.  The regex is deterministic on
this pattern (each `\s*`/`\d+` is followed by a literal outside its class),
so greedy consumption is exact. -/
def rgbMatch (l : List Char) : Option (Nat × Nat × Nat) := do
  let l ← expectChar 'r' l
  let l ← expectChar 'g' l
  let l ← expectChar 'b' l
  let l ← expectChar '(' (skipWs l)
  let (n1, l) ← digits1 (skipWs l)
  let l ← expectChar ',' (skipWs l)
  let (n2, l) ← digits1 (skipWs l)
  let l ← expectChar ',' (skipWs l)
  let (n3, l) ← digits1 (skipWs l)
  let _ ← expectChar ')' (skipWs l)
  pure (n1, n2, n3)

/-- `ColorContrastChecker.parse_color` (contrast_checker.py lines 62-91).
`None` models the `ValueError` raised on unrecognized input. -/
def parse_color (s : String) : Option (Nat × Nat × Nat) :=
  let t0 := pyLower (pyStrip s.data)
  let t := (namedLookup t0).getD t0
  match hexMatch t with
  | some v => some v
  | none =>
    match shortHexMatch t with
    | some v => some v
    | none => rgbMatch t

/-! ## `ColorContrastChecker`: luminance, contrast ratio, compliance

Floats are modelled as real numbers; `**` is `Real.rpow`. -/

/-- The inner gamma-correction function `adjust` of
`ColorContrastChecker.get_relative_luminance` (contrast_checker.py
lines 99-102). -/
noncomputable def adjust (channel : ℝ) : ℝ :=
  if channel ≤ 0.03928 then channel / 12.92
  else ((channel + 0.055) / 1.055) ^ (2.4 : ℝ)

/-- `ColorContrastChecker.get_relative_luminance` (lines 93-109). -/
noncomputable def get_relative_luminance (rgb : Nat × Nat × Nat) : ℝ :=
  0.2126 * adjust ((rgb.1 : ℝ) / 255) +
  0.7152 * adjust ((rgb.2.1 : ℝ) / 255) +
  0.0722 * adjust ((rgb.2.2 : ℝ) / 255)

/-- Lines 119-123 of `get_contrast_ratio`: lighter luminance in the
numerator, darker in the denominator. -/
noncomputable def ratio_of (lum1 lum2 : ℝ) : ℝ :=
  (max lum1 lum2 + 0.05) / (min lum1 lum2 + 0.05)

/-- `ColorContrastChecker.get_contrast_ratio` (lines 111-123); `none` models
the `ValueError` propagated from `parse_color`. -/
noncomputable def get_contrast_ratio (color1 color2 : String) : Option ℝ :=
  match parse_color color1, parse_color color2 with
  | some rgb1, some rgb2 =>
    some (ratio_of (get_relative_luminance rgb1) (get_relative_luminance rgb2))
  | _, _ => none

/-- The grade banding of `check_wcag_compliance` (contrast_checker.py
lines 148-156), verbatim:
`'AAA' if not large_text else 'AAA+'` in the top band. -/
noncomputable def grade_of (ratio : ℝ) (large_text : Bool) : String :=
  if ratio ≥ 7.0 then (if !large_text then "AAA" else "AAA+")
  else if ratio ≥ 4.5 then (if large_text then "AAA" else "AA")
  else if ratio ≥ 3.0 then (if large_text then "AA" else "Fail")
  else "Fail"

/-- The result dictionary of `check_wcag_compliance` (lines 158-167). -/
structure ContrastResult where
  ratio : ℝ
  level : String
  large_text : Bool
  passes : Prop
  required : ℝ
  grade : String
  foreground : String
  background : String

/-- `ColorContrastChecker.check_wcag_compliance` (lines 125-167). -/
noncomputable def check_wcag_compliance (foreground background : String)
    (level : String) (large_text : Bool) : Option ContrastResult :=
  match get_contrast_ratio foreground background with
  | none => none
  | some ratio =>
    let required : ℝ :=
      if level = "AAA" then (if large_text then 4.5 else 7.0)
      else (if large_text then 3.0 else 4.5)
    some { ratio := ratio, level := level, large_text := large_text,
           passes := ratio ≥ required, required := required,
           grade := grade_of ratio large_text,
           foreground := foreground, background := background }

/-! ## Document model for `accessibility_audit.py`

The external markup parser (BeautifulSoup) is a declared non-goal of the
repository; its output is modelled as a tree of element and text nodes.
A document is the list of top-level nodes.  `find_all` traversals return
elements in document (preorder) order, as BeautifulSoup's recursive
descent does. -/

/-- A parsed markup node: an element with tag name, attribute list and
children, or a text node. -/
inductive Node where
  | elem (tag : String) (attrs : List (String × String)) (children : List Node)
  | text (s : String)

/-- A parsed document: the top-level nodes of the tree. -/
abbrev Doc := List Node

/-- Tag name of a node (`tag.name`); text nodes have none. -/
def Node.tagName : Node → String
  | .elem t _ _ => t
  | .text _ => ""

/-- `tag.get(key)`: first binding of an attribute, `None` when absent. -/
def Node.getAttr : Node → String → Option String
  | .elem _ attrs _, k => (attrs.find? (fun p => p.1 == k)).map (·.2)
  | .text _, _ => none

/-- `tag.has_attr(key)`. -/
def Node.hasAttr (n : Node) (k : String) : Bool := (n.getAttr k).isSome

/-- Children of a node. -/
def Node.childList : Node → List Node
  | .elem _ _ cs => cs
  | .text _ => []

/-- Python truthiness of `tag.get(key)`: false when the attribute is absent
or its value is the empty string. -/
def attrFalsy (o : Option String) : Bool := o.isNone || o == some ""

mutual
/-- All element (Tag) descendants of a node, itself included, in document
(preorder) order. -/
def nodeDescendants : Node → List Node
  | .elem t a cs => .elem t a cs :: listDescendants cs
  | .text _ => []

/-- All element descendants of a node list, in document order. -/
def listDescendants : List Node → List Node
  | [] => []
  | n :: ns => nodeDescendants n ++ listDescendants ns
end

/-- `soup.find_all(name)`: all elements with the given tag name, in
document order. -/
def find_all_tag (doc : Doc) (t : String) : List Node :=
  (listDescendants doc).filter (fun n => n.tagName == t)

/-- `soup.find_all([n1, n2, ...])`: all elements whose tag name is in the
list, in document order. -/
def find_all_tags (doc : Doc) (ts : List String) : List Node :=
  (listDescendants doc).filter (fun n => ts.contains n.tagName)

/-- `tag.find(name)`: first element descendant (self excluded) with the
given tag name. -/
def Node.findDesc (n : Node) (t : String) : Option Node :=
  ((listDescendants n.childList).filter (fun m => m.tagName == t)).head?

mutual
/-- All text-node strings below a node, in document order
(BeautifulSoup's `_all_strings`). -/
def nodeStrings : Node → List String
  | .elem _ _ cs => listStrings cs
  | .text s => [s]

/-- All text-node strings below a node list, in document order. -/
def listStrings : List Node → List String
  | [] => []
  | n :: ns => nodeStrings n ++ listStrings ns
end

/-- `tag.get_text(strip=True)`: every string stripped, empty strings
dropped, the rest concatenated. -/
def Node.getTextStrip (n : Node) : String :=
  String.join (((nodeStrings n).map (fun s => String.mk (pyStrip s.data))).filter
    (fun s => s ≠ ""))

mutual
/-- `str(element)`: serialization of a node, used only for the (truncated)
`element` snippet of an issue. -/
def renderNode : Node → String
  | .elem t attrs cs =>
    "<" ++ t ++
      String.join (attrs.map (fun p => " " ++ p.1 ++ "=" ++ "\"" ++ p.2 ++ "\"")) ++
      ">" ++ renderList cs ++ "</" ++ t ++ ">"
  | .text s => s

/-- Serialization of a node list. -/
def renderList : List Node → String
  | [] => ""
  | n :: ns => renderNode n ++ renderList ns
end

/-! ## Issue model and the ten audit rules -/

/-- The `AccessibilityIssue` dataclass (accessibility_audit.py lines 32-40). -/
structure AccessibilityIssue where
  severity : String
  wcag_criterion : String
  message : String
  element : String
  line_number : Nat := 0
  suggestion : String := ""
deriving DecidableEq, Repr

/-- `AccessibilityAuditor._add_issue` (lines 69-79): the element snippet is
`str(element)[:100]` when an element is given, else the empty string. -/
def mk_issue (severity wcag message : String) (element : Option Node)
    (suggestion : String) : AccessibilityIssue :=
  { severity := severity, wcag_criterion := wcag, message := message,
    element := match element with
      | some e => String.mk ((renderNode e).data.take 100)
      | none => "",
    suggestion := suggestion }

/-- Append the per-element issue lists of every element of a list, keeping
document order (the shape of every `for ... in soup.find_all(...)` loop). -/
def perElem (f : Node → List AccessibilityIssue) :
    List Node → List AccessibilityIssue
  | [] => []
  | n :: ns => f n ++ perElem f ns

/-- The `suspicious_patterns` of `_check_images` (line 99). -/
def suspicious_patterns : List String :=
  ["image of", "picture of", "graphic of", "photo of"]

/-- `pattern in text` (Python substring test). -/
def containsSub (pat s : List Char) : Bool := s.tails.any (fun t => pat.isPrefixOf t)

/-- Issues of `_check_images` for one `img` element (lines 85-107). -/
def check_image (img : Node) : List AccessibilityIssue :=
  if !img.hasAttr "alt" then
    [mk_issue "error" "1.1.1" "Image missing alt attribute" (some img)
      "Add alt=\"\" for decorative images or descriptive alt text for meaningful images"]
  else if String.mk (pyStrip ((img.getAttr "alt").getD "").data) ≠ "" then
    let alt_text := pyLower ((img.getAttr "alt").getD "").data
    if suspicious_patterns.any (fun pat => containsSub pat.data alt_text) then
      [mk_issue "warning" "1.1.1"
        ("Alt text may be overly descriptive: \"" ++ (img.getAttr "alt").getD "" ++ "\"")
        (some img) "Describe content/function, not that it's an image"]
    else []
  else []

/-- `AccessibilityAuditor._check_images` (lines 81-107). -/
def check_images (doc : Doc) : List AccessibilityIssue :=
  perElem check_image (find_all_tag doc "img")

/-- `int(heading.name[1])`: numeric level of a heading tag. -/
def headingLevel (n : Node) : Nat := cn (n.tagName.data.getD 1 '0') - 48

/-- The heading-hierarchy loop of `_check_headings` (lines 140-163), with the
running `prev_level`. -/
def heading_walk (prev_level : Nat) : List Node → List AccessibilityIssue
  | [] => []
  | h :: rest =>
    let current_level := headingLevel h
    ((if prev_level > 0 && current_level - prev_level > 1 then
        [mk_issue "error" "1.3.1"
          ("Heading level skipped: " ++ h.tagName ++ " follows h" ++ toString prev_level)
          (some h) "Never skip heading levels (e.g., h1 → h3)"]
      else []) ++
     (if h.getTextStrip = "" then
        [mk_issue "error" "2.4.6" ("Empty heading: " ++ h.tagName) (some h)
          "All headings must contain text content"]
      else []) ++
     heading_walk current_level rest)

/-- `AccessibilityAuditor._check_headings` (lines 109-163). -/
def check_headings (doc : Doc) : List AccessibilityIssue :=
  let headings := find_all_tags doc ["h1", "h2", "h3", "h4", "h5", "h6"]
  if headings.isEmpty then
    [mk_issue "warning" "2.4.6"
      "No headings found - consider adding headings for structure" none
      "Use h1-h6 elements to provide page structure"]
  else
    let h1_count := (find_all_tag doc "h1").length
    ((if h1_count = 0 then
        [mk_issue "error" "2.4.6" "No h1 heading found" none
          "Every page should have exactly one h1 element"]
      else if h1_count > 1 then
        [mk_issue "warning" "2.4.6"
          ("Multiple h1 headings found (" ++ toString h1_count ++ ")") none
          "Use only one h1 per page"]
      else []) ++
     heading_walk 0 headings)

/-- The `generic_text` list of `_check_links` (line 183). -/
def generic_text : List String := ["click here", "read more", "more", "link", "here"]

/-- Guard of the empty-link check (line 173): no text content and no
embedded image. -/
def link_empty_cond (link : Node) : Bool :=
  link.getTextStrip == "" && (link.findDesc "img").isNone

/-- Guard of the generic-link-text check (line 184): trimmed text, lowered,
is one of the generic phrases. -/
def link_generic_cond (link : Node) : Bool :=
  generic_text.contains (String.mk (pyLower link.getTextStrip.data))

/-- Guard of the missing-href check (line 194): attribute absent or blank
after stripping. -/
def link_href_cond (link : Node) : Bool :=
  !link.hasAttr "href" || String.mk (pyStrip (((link.getAttr "href").getD "").data)) == ""

/-- Issues of `_check_links` for one `a` element (lines 169-201). -/
def check_link (link : Node) : List AccessibilityIssue :=
  let link_text := link.getTextStrip
  ((if link_empty_cond link then
      [mk_issue "error" "2.4.4" "Empty link with no text or image" (some link)
        "Add descriptive link text or alt text on linked image"]
    else []) ++
   (if link_generic_cond link then
      [mk_issue "warning" "2.4.4" ("Generic link text: \"" ++ link_text ++ "\"")
        (some link) "Use descriptive link text that makes sense out of context"]
    else []) ++
   (if link_href_cond link then
      [mk_issue "error" "2.4.4" "Link missing href attribute" (some link)
        "All links must have a valid href attribute"]
    else []))

/-- `AccessibilityAuditor._check_links` (lines 165-201). -/
def check_links (doc : Doc) : List AccessibilityIssue :=
  perElem check_link (find_all_tag doc "a")

/-- Issues of the input-label part of `_check_forms` for one control
(lines 208-233).  `soup.find('label', {'for': input_id})` resolves against
the whole document, hence the extra `doc` argument; `if input_id:` is
Python truthiness (None and `""` are falsy). -/
def check_form_input (doc : Doc) (inp : Node) : List AccessibilityIssue :=
  let input_type := (inp.getAttr "type").getD "text"
  if ["hidden", "submit", "button", "reset"].contains input_type then []
  else
    let input_id := inp.getAttr "id"
    let has_label :=
      if attrFalsy input_id then false
      else
        ((listDescendants doc).filter (fun n =>
          n.tagName == "label" && n.getAttr "for" == input_id)).head?.isSome
    if !has_label && attrFalsy (inp.getAttr "aria-label") &&
        attrFalsy (inp.getAttr "aria-labelledby") then
      [mk_issue "error" "3.3.2"
        ("Form input missing label: " ++ (inp.getAttr "name").getD "unnamed")
        (some inp) "Associate a <label> element or add aria-label attribute"]
    else []

/-- `AccessibilityAuditor._check_forms` (lines 203-245). -/
def check_forms (doc : Doc) : List AccessibilityIssue :=
  perElem (check_form_input doc) (find_all_tags doc ["input", "select", "textarea"]) ++
  perElem (fun fieldset =>
      if (fieldset.findDesc "legend").isNone then
        [mk_issue "warning" "1.3.1" "Fieldset missing legend" (some fieldset)
          "Add <legend> to describe the group of form fields"]
      else [])
    (find_all_tag doc "fieldset")

/-- `AccessibilityAuditor._check_page_structure` (lines 247-270).  Note the
source concatenates `find_all('nav')` with `find_all(attrs={'role':
'navigation'})`, so a `nav` carrying that role is counted twice. -/
def check_page_structure (doc : Doc) : List AccessibilityIssue :=
  ((if ((listDescendants doc).filter (fun n => n.tagName == "main")).head?.isNone &&
       ((listDescendants doc).filter (fun n => n.getAttr "role" == some "main")).head?.isNone
    then
      [mk_issue "warning" "1.3.1" "No main landmark found" none
        "Add <main> element to identify main content"]
    else []) ++
   (let nav_elements := find_all_tag doc "nav" ++
      (listDescendants doc).filter (fun n => n.getAttr "role" == some "navigation")
    if nav_elements.length > 1 then
      perElem (fun nav =>
          if attrFalsy (nav.getAttr "aria-label") &&
              attrFalsy (nav.getAttr "aria-labelledby") then
            [mk_issue "warning" "1.3.1"
              "Multiple navigation regions - consider adding aria-label" (some nav)
              "When multiple navs exist, label each: <nav aria-label=\"Main navigation\">"]
          else [])
        nav_elements
    else []))

/-- Guard of `_check_semantic_html` (line 279): Python truthiness of
`div.get('onclick')` (present and non-empty), or `role == 'button'`. -/
def div_as_button_cond (d : Node) : Bool :=
  !attrFalsy (d.getAttr "onclick") || d.getAttr "role" == some "button"

/-- `AccessibilityAuditor._check_semantic_html` (lines 272-286): the loop
runs over `soup.find_all('div')` only. -/
def check_semantic_html (doc : Doc) : List AccessibilityIssue :=
  perElem (fun d =>
      if div_as_button_cond d then
        [mk_issue "error" "4.1.2" "Div used as button" (some d)
          "Use <button> element instead of div with onclick"]
      else [])
    (find_all_tag doc "div")

/-- Issues of `_check_tables` for one `table` element (lines 292-323). -/
def check_table (tb : Node) : List AccessibilityIssue :=
  ((if (tb.findDesc "caption").isNone then
      [mk_issue "warning" "1.3.1" "Table missing caption" (some tb)
        "Add <caption> to describe table purpose"]
    else []) ++
   (if (tb.findDesc "th").isNone then
      [mk_issue "warning" "1.3.1" "Table has no header cells (th)" (some tb)
        "Use <th> elements for table headers"]
    else []) ++
   perElem (fun th =>
       if attrFalsy (th.getAttr "scope") then
         [mk_issue "warning" "1.3.1" "Table header missing scope attribute" (some th)
           "Add scope=\"col\" or scope=\"row\" to <th> elements"]
       else [])
     ((listDescendants tb.childList).filter (fun n => n.tagName == "th")))

/-- `AccessibilityAuditor._check_tables` (lines 288-323). -/
def check_tables (doc : Doc) : List AccessibilityIssue :=
  perElem check_table (find_all_tag doc "table")

/-- `AccessibilityAuditor._check_buttons` (lines 325-337). -/
def check_buttons (doc : Doc) : List AccessibilityIssue :=
  perElem (fun b =>
      if b.getTextStrip == "" && (b.findDesc "img").isNone then
        [mk_issue "error" "4.1.2" "Button has no text content" (some b)
          "Add text content or aria-label to button"]
      else [])
    (find_all_tag doc "button")

/-- `AccessibilityAuditor._check_language` (lines 339-350). -/
def check_language (doc : Doc) : List AccessibilityIssue :=
  match ((listDescendants doc).filter (fun n => n.tagName == "html")).head? with
  | some html_tag =>
    if attrFalsy (html_tag.getAttr "lang") then
      [mk_issue "error" "3.1.1" "HTML element missing lang attribute" (some html_tag)
        "Add lang=\"en\" to <html> element"]
    else []
  | none => []

/-- The `discouraged_roles` table of `_check_aria_usage` (lines 361-367). -/
def discouraged_roles : List (String × String) :=
  [("button", "<button>"), ("link", "<a href=\"\">"),
   ("checkbox", "<input type=\"checkbox\">"), ("radio", "<input type=\"radio\">"),
   ("textbox", "<input type=\"text\">")]

/-- `AccessibilityAuditor._check_aria_usage` (lines 352-376). -/
def check_aria_usage (doc : Doc) : List AccessibilityIssue :=
  perElem (fun el =>
      let role := (el.getAttr "role").getD ""
      match (discouraged_roles.find? (fun p => p.1 == role)).map (·.2) with
      | some native =>
        [mk_issue "warning" "4.1.2"
          ("ARIA role=\"" ++ role ++ "\" used - native HTML preferred") (some el)
          ("Use " ++ native ++ " instead of ARIA role")]
      | none => [])
    ((listDescendants doc).filter (fun n => (n.getAttr "role").isSome))

/-! ## `audit_html`, `audit_file` and the exit code -/

/-- The auditor's instance state: `self.wcag_level` and `self.issues`
(lines 46-48). -/
structure AuditorState where
  wcag_level : String
  issues : List AccessibilityIssue

/-- The fixed rule sequence run by `audit_html` (lines 56-65), in source
order; each rule only appends to the issue list. -/
def runChecks (doc : Doc) : List AccessibilityIssue :=
  check_images doc ++ check_headings doc ++ check_links doc ++ check_forms doc ++
  check_page_structure doc ++ check_semantic_html doc ++ check_tables doc ++
  check_buttons doc ++ check_language doc ++ check_aria_usage doc

/-- `AccessibilityAuditor.audit_html` (lines 50-67): `self.issues = []`
resets the collector, the ten checks append, and the final list is both
returned and left in the instance state. -/
def audit_html (st : AuditorState) (doc : Doc) :
    List AccessibilityIssue × AuditorState :=
  let issues := ([] : List AccessibilityIssue) ++ runChecks doc
  (issues, { st with issues := issues })

/-- `len([i for i in issues if i.severity == 'error'])` (line 428). -/
def count_errors (issues : List AccessibilityIssue) : Nat :=
  (issues.filter (fun i => i.severity == "error")).length

/-- `audit_file` (lines 414-432) for a single file: on a successful read
and parse it returns the number of error-severity issues; any exception is
reported and `1` is returned.  For `main` on an existing single file
(lines 486-491) this return value is passed to `sys.exit` unchanged, so it
is the process exit code. -/
def audit_file (outcome : Except String Doc) (wcag_level : String) : Nat :=
  match outcome with
  | .ok doc => count_errors (audit_html ⟨wcag_level, []⟩ doc).1
  | .error _ => 1

/-! ## Arithmetic facts about the contrast model -/

lemma adjust_nonneg (c : ℝ) (hc : 0 ≤ c) : 0 ≤ adjust c := by
  unfold adjust
  split
  · positivity
  · exact Real.rpow_nonneg (by positivity) _

lemma lum_nonneg (rgb : Nat × Nat × Nat) : 0 ≤ get_relative_luminance rgb := by
  unfold get_relative_luminance
  have h1 := adjust_nonneg ((rgb.1 : ℝ) / 255) (by positivity)
  have h2 := adjust_nonneg ((rgb.2.1 : ℝ) / 255) (by positivity)
  have h3 := adjust_nonneg ((rgb.2.2 : ℝ) / 255) (by positivity)
  nlinarith

lemma lum_black : get_relative_luminance (0, 0, 0) = 0 := by
  unfold get_relative_luminance adjust
  norm_num

lemma lum_white : get_relative_luminance (255, 255, 255) = 1 := by
  unfold get_relative_luminance adjust
  have h255 : ((255 : Nat) : ℝ) / 255 = 1 := by norm_num
  rw [h255, if_neg (by norm_num)]
  have h1 : ((1 : ℝ) + 0.055) / 1.055 = 1 := by norm_num
  rw [h1, Real.one_rpow]
  norm_num

lemma contrast_black_white : get_contrast_ratio "#000000" "#ffffff" = some 21 := by
  have h1 : parse_color "#000000" = some (0, 0, 0) := by decide
  have h2 : parse_color "#ffffff" = some (255, 255, 255) := by decide
  unfold get_contrast_ratio
  rw [h1, h2]
  simp only [lum_black, lum_white, ratio_of]
  norm_num

/-! ## Claim theorems: contrast checker -/

/-- **C5.** `get_contrast_ratio` is symmetric in its two arguments (for all
inputs, parseable or not), and on any parseable color paired with itself it
returns exactly `1`. -/
theorem contrast_ratio_symm_refl :
    (∀ a b, get_contrast_ratio a b = get_contrast_ratio b a) ∧
    (∀ a rgb, parse_color a = some rgb → get_contrast_ratio a a = some 1) := by
  constructor
  · intro a b
    unfold get_contrast_ratio
    cases ha : parse_color a <;> cases hb : parse_color b <;>
      simp [ratio_of, max_comm, min_comm]
  · intro a rgb h
    unfold get_contrast_ratio
    rw [h]
    simp only [ratio_of, max_self, min_self, Option.some.injEq]
    have := lum_nonneg rgb
    rw [div_self (by positivity)]

/-- Witness for C5: the reflexive part evaluated at the concrete color
`"#aabbcc"`. -/
theorem contrast_ratio_symm_refl_witness :
    get_contrast_ratio "#aabbcc" "#aabbcc" = some 1 :=
  contrast_ratio_symm_refl.2 "#aabbcc" (170, 187, 204) (by decide)

/-- **C6.** Whenever `get_contrast_ratio` returns a value (both colors
parse), that value is at least `1`. -/
theorem contrast_ratio_ge_one :
    ∀ c1 c2 r, get_contrast_ratio c1 c2 = some r → 1 ≤ r := by
  intro c1 c2 r h
  unfold get_contrast_ratio at h
  cases h1 : parse_color c1 <;> rw [h1] at h
  · simp at h
  · case some rgb1 =>
    cases h2 : parse_color c2 <;> rw [h2] at h
    · simp at h
    · case some rgb2 =>
      simp only [Option.some.injEq] at h
      subst h
      unfold ratio_of
      have hmin : (0 : ℝ) ≤
          min (get_relative_luminance rgb1) (get_relative_luminance rgb2) :=
        le_min (lum_nonneg rgb1) (lum_nonneg rgb2)
      rw [one_le_div (by positivity)]
      have hmm := min_le_max (a := get_relative_luminance rgb1)
        (b := get_relative_luminance rgb2)
      linarith

/-- Witness for C6 at the concrete pair `("#aabbcc", "#000000")`. -/
theorem contrast_ratio_ge_one_witness :
    1 ≤ ratio_of (get_relative_luminance (170, 187, 204))
      (get_relative_luminance (0, 0, 0)) := by
  apply contrast_ratio_ge_one "#aabbcc" "#000000"
  have h1 : parse_color "#aabbcc" = some (170, 187, 204) := by decide
  have h2 : parse_color "#000000" = some (0, 0, 0) := by decide
  unfold get_contrast_ratio
  rw [h1, h2]

/-- **C1, counterexample.** The claim says the grade `"AAA+"` appears only
when `large_text` is *false*.  On the code, black on white at ratio `21 ≥ 7`
with `large_text = true` yields grade `"AAA+"` (line 150 reads
`'AAA' if not large_text else 'AAA+'`), not `"AAA"` as the claimed bands
require. -/
theorem grade_bands_counterexample :
    get_contrast_ratio "#000000" "#ffffff" = some 21 ∧ (7 : ℝ) ≤ 21 ∧
    (check_wcag_compliance "#000000" "#ffffff" "AA" true).map ContrastResult.grade =
      some "AAA+" ∧ "AAA+" ≠ "AAA" := by
  refine ⟨contrast_black_white, by norm_num, ?_, by decide⟩
  unfold check_wcag_compliance
  rw [contrast_black_white]
  show some (grade_of (21 : ℝ) true) = some "AAA+"
  have hg : grade_of (21 : ℝ) true = "AAA+" := by
    unfold grade_of
    rw [if_pos (by norm_num)]
    rfl
  rw [hg]

/-- **C1, amended.** The grade bands of `check_wcag_compliance`, as the code
computes them: ratio ≥ 7.0 gives `"AAA+"` when `large_text` is **true** and
`"AAA"` when it is false; 7.0 > ratio ≥ 4.5 gives `"AAA"` if large text else
`"AA"`; 4.5 > ratio ≥ 3.0 gives `"AA"` if large text else `"Fail"`;
otherwise `"Fail"`.  The grade `"AAA+"` is reachable only when `large_text`
is **true**, and `check_wcag_compliance` assigns exactly these grades. -/
theorem grade_bands (r : ℝ) (lt : Bool) :
    (7 ≤ r → grade_of r lt = if lt then "AAA+" else "AAA") ∧
    (4.5 ≤ r → r < 7 → grade_of r lt = if lt then "AAA" else "AA") ∧
    (3 ≤ r → r < 4.5 → grade_of r lt = if lt then "AA" else "Fail") ∧
    (r < 3 → grade_of r lt = "Fail") ∧
    (grade_of r lt = "AAA+" → lt = true) ∧
    (∀ fg bg lvl res, check_wcag_compliance fg bg lvl lt = some res →
      res.grade = grade_of res.ratio lt) := by
  refine ⟨?_, ?_, ?_, ?_, ?_, ?_⟩
  · intro h
    unfold grade_of
    rw [if_pos (by norm_num; linarith)]
    cases lt <;> rfl
  · intro h1 h2
    unfold grade_of
    rw [if_neg (by norm_num; linarith), if_pos (by norm_num; linarith)]
  · intro h1 h2
    unfold grade_of
    rw [if_neg (by norm_num; linarith), if_neg (by norm_num; linarith),
      if_pos (by norm_num; linarith)]
  · intro h
    unfold grade_of
    rw [if_neg (by norm_num; linarith), if_neg (by norm_num; linarith),
      if_neg (by norm_num; linarith)]
  · intro h
    cases lt
    · exfalso
      unfold grade_of at h
      split at h
      · simp at h
      · split at h
        · simp at h
        · split at h <;> simp at h
    · rfl
  · intro fg bg lvl res h
    unfold check_wcag_compliance at h
    cases hr : get_contrast_ratio fg bg <;> rw [hr] at h
    · simp at h
    · simp only [Option.some.injEq] at h
      subst h
      rfl

/-- Witness for the amended C1 at ratio 21 (black on white) with
`large_text = true`. -/
theorem grade_bands_witness : grade_of 21 true = "AAA+" := by
  have h := (grade_bands 21 true).1 (by norm_num)
  simpa using h

/-! ## Claim theorems: auditor statelessness and exit codes -/

/-- **C8.** `audit_html` is stateless across calls: the returned issue list
depends only on the document (and not on `self.issues` left by earlier
calls), because each invocation resets the collector; in particular running
it after any earlier `audit_html` call on the same instance gives the same
result. -/
theorem audit_html_stateless :
    ∀ lvl iss iss' doc doc',
      (audit_html ⟨lvl, iss⟩ doc).1 = (audit_html ⟨lvl, iss'⟩ doc).1 ∧
      (audit_html (audit_html ⟨lvl, iss⟩ doc').2 doc).1 =
        (audit_html ⟨lvl, iss⟩ doc).1 := by
  intro lvl iss iss' doc doc'
  exact ⟨rfl, rfl⟩

/-- **C2, counterexample.** A single existing file whose document holds an
alt-less `img` and an empty `button` has two error-severity issues, and the
single-file exit path returns `2` — not `1` as the claim requires. -/
theorem exit_code_counterexample :
    audit_file (Except.ok [Node.elem "html" [("lang", "en")]
      [Node.elem "body" [] [Node.elem "h1" [] [Node.text "T"],
        Node.elem "img" [] [], Node.elem "button" [] []]]]) "AA" = 2 ∧
    0 < count_errors (audit_html ⟨"AA", []⟩ [Node.elem "html" [("lang", "en")]
      [Node.elem "body" [] [Node.elem "h1" [] [Node.text "T"],
        Node.elem "img" [] [], Node.elem "button" [] []]]]).1 ∧
    (2 : Nat) ≠ 1 :=
  ⟨by decide, by decide, by decide⟩

/-- **C2, amended.** For a run on a single existing file, the process exit
code equals the *number* of error-severity issues found (and `1` when a
file-level error occurs); hence it is `0` exactly when no error-severity
issue is found, but it can exceed `1`. -/
theorem audit_file_exit_code :
    (∀ doc lvl,
      audit_file (Except.ok doc) lvl = count_errors (audit_html ⟨lvl, []⟩ doc).1 ∧
      (audit_file (Except.ok doc) lvl = 0 ↔
        ∀ i ∈ (audit_html ⟨lvl, []⟩ doc).1, i.severity ≠ "error")) ∧
    (∀ e lvl, audit_file (Except.error e) lvl = 1) := by
  constructor
  · intro doc lvl
    refine ⟨rfl, ?_⟩
    show count_errors _ = 0 ↔ _
    unfold count_errors
    rw [List.length_eq_zero, List.filter_eq_nil_iff]
    simp
  · intro e lvl
    rfl

/-- Witness for the amended C2: the file-level-error branch applied at a
concrete error. -/
theorem audit_file_exit_code_witness :
    audit_file (Except.error "unreadable") "AA" = 1 :=
  audit_file_exit_code.2 "unreadable" "AA"

/-- The empty-link check and the generic-text check of `_check_links` are
mutually exclusive: the first needs empty trimmed text, the second needs a
non-empty generic phrase. -/
lemma link_empty_generic_exclusive (link : Node) :
    link_empty_cond link = true → link_generic_cond link = false := by
  intro h1
  unfold link_empty_cond at h1
  unfold link_generic_cond
  simp only [Bool.and_eq_true, beq_iff_eq] at h1
  rw [h1.1]
  decide

/-- **C3, counterexample.** The claim asserts a single link element exists
on which all three link checks fire; in fact no link can fire both the
empty-link check and the generic-text check, so no such element exists in
any document. -/
theorem link_checks_counterexample :
    ¬ ∃ (doc : Doc) (link : Node), link ∈ find_all_tag doc "a" ∧
        link_empty_cond link = true ∧ link_generic_cond link = true ∧
        link_href_cond link = true := by
  rintro ⟨doc, link, -, h1, h2, -⟩
  rw [link_empty_generic_exclusive link h1] at h2
  exact Bool.false_ne_true h2

/-- **C3, amended.** Any *two* of the three link checks can fire on a single
link element — generic-text with missing-href (`<a>here</a>`), and
empty-link with missing-href (`<a></a>`) — but the empty-link check and the
generic-text check are mutually exclusive, so all three never fire
together. -/
theorem link_checks_pairwise :
    (∃ (doc : Doc) (link : Node), link ∈ find_all_tag doc "a" ∧
      link_generic_cond link = true ∧ link_href_cond link = true ∧
      mk_issue "warning" "2.4.4" "Generic link text: \"here\"" (some link)
        "Use descriptive link text that makes sense out of context" ∈ check_link link ∧
      mk_issue "error" "2.4.4" "Link missing href attribute" (some link)
        "All links must have a valid href attribute" ∈ check_link link) ∧
    (∃ (doc : Doc) (link : Node), link ∈ find_all_tag doc "a" ∧
      link_empty_cond link = true ∧ link_href_cond link = true ∧
      mk_issue "error" "2.4.4" "Empty link with no text or image" (some link)
        "Add descriptive link text or alt text on linked image" ∈ check_link link ∧
      mk_issue "error" "2.4.4" "Link missing href attribute" (some link)
        "All links must have a valid href attribute" ∈ check_link link) ∧
    (∀ link : Node, ¬ (link_empty_cond link = true ∧ link_generic_cond link = true)) := by
  refine ⟨?_, ?_, ?_⟩
  · refine ⟨[Node.elem "a" [] [Node.text "here"]],
      Node.elem "a" [] [Node.text "here"], ?_, by decide, by decide, ?_, ?_⟩
    · rw [show find_all_tag [Node.elem "a" [] [Node.text "here"]] "a" =
        [Node.elem "a" [] [Node.text "here"]] from rfl]
      exact List.mem_singleton.mpr rfl
    · rw [show check_link (Node.elem "a" [] [Node.text "here"]) =
        [mk_issue "warning" "2.4.4" "Generic link text: \"here\""
          (some (Node.elem "a" [] [Node.text "here"]))
          "Use descriptive link text that makes sense out of context",
         mk_issue "error" "2.4.4" "Link missing href attribute"
          (some (Node.elem "a" [] [Node.text "here"]))
          "All links must have a valid href attribute"] from by decide]
      decide
    · rw [show check_link (Node.elem "a" [] [Node.text "here"]) =
        [mk_issue "warning" "2.4.4" "Generic link text: \"here\""
          (some (Node.elem "a" [] [Node.text "here"]))
          "Use descriptive link text that makes sense out of context",
         mk_issue "error" "2.4.4" "Link missing href attribute"
          (some (Node.elem "a" [] [Node.text "here"]))
          "All links must have a valid href attribute"] from by decide]
      decide
  · refine ⟨[Node.elem "a" [] []], Node.elem "a" [] [], ?_, by decide, by decide, ?_, ?_⟩
    · rw [show find_all_tag [Node.elem "a" [] []] "a" =
        [Node.elem "a" [] []] from rfl]
      exact List.mem_singleton.mpr rfl
    · rw [show check_link (Node.elem "a" [] []) =
        [mk_issue "error" "2.4.4" "Empty link with no text or image"
          (some (Node.elem "a" [] []))
          "Add descriptive link text or alt text on linked image",
         mk_issue "error" "2.4.4" "Link missing href attribute"
          (some (Node.elem "a" [] []))
          "All links must have a valid href attribute"] from by decide]
      decide
    · rw [show check_link (Node.elem "a" [] []) =
        [mk_issue "error" "2.4.4" "Empty link with no text or image"
          (some (Node.elem "a" [] []))
          "Add descriptive link text or alt text on linked image",
         mk_issue "error" "2.4.4" "Link missing href attribute"
          (some (Node.elem "a" [] []))
          "All links must have a valid href attribute"] from by decide]
      decide
  · rintro link ⟨h1, h2⟩
    rw [link_empty_generic_exclusive link h1] at h2
    exact Bool.false_ne_true h2

/-- Witness for the amended C3: the mutual-exclusivity part applied at the
concrete link `<a>here</a>`. -/
theorem link_checks_pairwise_witness :
    ¬ (link_empty_cond (Node.elem "a" [] [Node.text "here"]) = true ∧
       link_generic_cond (Node.elem "a" [] [Node.text "here"]) = true) :=
  link_checks_pairwise.2.2 (Node.elem "a" [] [Node.text "here"])

/-- **C4, counterexample.** A `span` carrying a non-empty `onclick` handler
is a generic container in the claim's sense, yet the semantic-HTML rule
(which iterates over `soup.find_all('div')` only) emits nothing for it —
indeed the whole audit of the document emits no error-severity issue. -/
theorem semantic_html_counterexample :
    (Node.elem "span" [("onclick", "go()")] []).getAttr "onclick" = some "go()" ∧
    Node.elem "span" [("onclick", "go()")] [] ∈
      listDescendants [Node.elem "span" [("onclick", "go()")] []] ∧
    check_semantic_html [Node.elem "span" [("onclick", "go()")] []] = [] ∧
    (audit_html ⟨"AA", []⟩ [Node.elem "span" [("onclick", "go()")] []]).1.filter
      (fun i => i.severity == "error") = [] := by
  refine ⟨rfl, ?_, rfl, by decide⟩
  rw [show listDescendants [Node.elem "span" [("onclick", "go()")] []] =
    [Node.elem "span" [("onclick", "go()")] []] from rfl]
  exact List.mem_singleton.mpr rfl

/-- `perElem` of a guarded singleton is a filter-then-map. -/
lemma perElem_ite_singleton (p : Node → Bool) (f : Node → AccessibilityIssue) :
    ∀ l : List Node, perElem (fun x => if p x then [f x] else []) l =
      (l.filter p).map f := by
  intro l
  induction l with
  | nil => rfl
  | cons x xs ih =>
    simp only [perElem, List.filter_cons]
    by_cases hx : p x <;> simp [hx, ih]

/-- **C4, amended.** The semantic-HTML rule emits an error for exactly the
`div` elements whose `onclick` attribute is present and non-empty or whose
`role` is `"button"` — and for no other element: `span`s and every other
tag are outside the rule. -/
theorem semantic_html_divs_only :
    (∀ doc, check_semantic_html doc =
      ((find_all_tag doc "div").filter div_as_button_cond).map
        (fun d => mk_issue "error" "4.1.2" "Div used as button" (some d)
          "Use <button> element instead of div with onclick")) ∧
    (∀ d : Node, div_as_button_cond d = true ↔
      ((∃ v, d.getAttr "onclick" = some v ∧ v ≠ "") ∨
        d.getAttr "role" = some "button")) := by
  constructor
  · intro doc
    exact perElem_ite_singleton _ _ _
  · intro d
    unfold div_as_button_cond attrFalsy
    cases h : d.getAttr "onclick" <;> simp [h]

/-- Witness for the amended C4: a concrete `div` with a non-empty `onclick`
satisfies the rule's guard. -/
theorem semantic_html_divs_only_witness :
    div_as_button_cond (Node.elem "div" [("onclick", "f()")] []) = true :=
  (semantic_html_divs_only.2 (Node.elem "div" [("onclick", "f()")] [])).mpr
    (Or.inl ⟨"f()", rfl, by decide⟩)

/-! ## C9: every emitted issue has a truncated element snippet -/

lemma mem_perElem {f : Node → List AccessibilityIssue} {i : AccessibilityIssue} :
    ∀ {l : List Node}, i ∈ perElem f l ↔ ∃ x ∈ l, i ∈ f x := by
  intro l
  induction l with
  | nil => simp [perElem]
  | cons x xs ih => simp [perElem, List.mem_append, ih]

lemma mk_issue_element_length (s w m : String) (e : Option Node) (sg : String) :
    (mk_issue s w m e sg).element.length ≤ 100 := by
  cases e with
  | none => simp [mk_issue, String.length]
  | some el =>
    show (String.mk ((renderNode el).data.take 100)).length ≤ 100
    simp only [String.length, List.length_take]
    exact min_le_left _ _

lemma check_image_trunc : ∀ x i, i ∈ check_image x → i.element.length ≤ 100 := by
  intro x i hi
  simp only [check_image] at hi
  split at hi
  · rw [List.mem_singleton] at hi; subst hi; exact mk_issue_element_length ..
  · split at hi
    · split at hi
      · rw [List.mem_singleton] at hi; subst hi; exact mk_issue_element_length ..
      · simp at hi
    · simp at hi

lemma heading_walk_trunc :
    ∀ hs prev i, i ∈ heading_walk prev hs → i.element.length ≤ 100 := by
  intro hs
  induction hs with
  | nil => intro prev i hi; simp [heading_walk] at hi
  | cons h t ih =>
    intro prev i hi
    simp only [heading_walk, List.mem_append] at hi
    rcases hi with (hi | hi) | hi
    · split at hi
      · rw [List.mem_singleton] at hi; subst hi; exact mk_issue_element_length ..
      · simp at hi
    · split at hi
      · rw [List.mem_singleton] at hi; subst hi; exact mk_issue_element_length ..
      · simp at hi
    · exact ih _ i hi

lemma check_headings_trunc :
    ∀ doc i, i ∈ check_headings doc → i.element.length ≤ 100 := by
  intro doc i hi
  simp only [check_headings] at hi
  split at hi
  · rw [List.mem_singleton] at hi; subst hi; exact mk_issue_element_length ..
  · rw [List.mem_append] at hi
    rcases hi with hi | hi
    · split at hi
      · rw [List.mem_singleton] at hi; subst hi; exact mk_issue_element_length ..
      · split at hi
        · rw [List.mem_singleton] at hi; subst hi; exact mk_issue_element_length ..
        · simp at hi
    · exact heading_walk_trunc _ _ i hi

lemma check_link_trunc : ∀ x i, i ∈ check_link x → i.element.length ≤ 100 := by
  intro x i hi
  simp only [check_link, List.mem_append] at hi
  rcases hi with (hi | hi) | hi <;>
    first
    | (split at hi
       · rw [List.mem_singleton] at hi; subst hi; exact mk_issue_element_length ..
       · simp at hi)

lemma check_forms_trunc : ∀ doc i, i ∈ check_forms doc → i.element.length ≤ 100 := by
  intro doc i hi
  simp only [check_forms, List.mem_append] at hi
  rcases hi with hi | hi <;> rw [mem_perElem] at hi <;> obtain ⟨x, -, hm⟩ := hi
  · simp only [check_form_input] at hm
    repeat' split at hm
    all_goals
      first
      | (rw [List.mem_singleton] at hm; subst hm; exact mk_issue_element_length ..)
      | exact absurd hm (by simp)
  · split at hm
    · rw [List.mem_singleton] at hm; subst hm; exact mk_issue_element_length ..
    · simp at hm

lemma check_page_structure_trunc :
    ∀ doc i, i ∈ check_page_structure doc → i.element.length ≤ 100 := by
  intro doc i hi
  simp only [check_page_structure, List.mem_append] at hi
  rcases hi with hi | hi
  · split at hi
    · rw [List.mem_singleton] at hi; subst hi; exact mk_issue_element_length ..
    · simp at hi
  · split at hi
    · rw [mem_perElem] at hi
      obtain ⟨x, -, hm⟩ := hi
      split at hm
      · rw [List.mem_singleton] at hm; subst hm; exact mk_issue_element_length ..
      · simp at hm
    · simp at hi

lemma check_semantic_html_trunc :
    ∀ doc i, i ∈ check_semantic_html doc → i.element.length ≤ 100 := by
  intro doc i hi
  simp only [check_semantic_html] at hi
  rw [mem_perElem] at hi
  obtain ⟨x, -, hm⟩ := hi
  split at hm
  · rw [List.mem_singleton] at hm; subst hm; exact mk_issue_element_length ..
  · simp at hm

lemma check_tables_trunc : ∀ doc i, i ∈ check_tables doc → i.element.length ≤ 100 := by
  intro doc i hi
  simp only [check_tables] at hi
  rw [mem_perElem] at hi
  obtain ⟨x, -, hm⟩ := hi
  simp only [check_table, List.mem_append] at hm
  rcases hm with (hm | hm) | hm
  · split at hm
    · rw [List.mem_singleton] at hm; subst hm; exact mk_issue_element_length ..
    · simp at hm
  · split at hm
    · rw [List.mem_singleton] at hm; subst hm; exact mk_issue_element_length ..
    · simp at hm
  · rw [mem_perElem] at hm
    obtain ⟨y, -, hm⟩ := hm
    split at hm
    · rw [List.mem_singleton] at hm; subst hm; exact mk_issue_element_length ..
    · simp at hm

lemma check_buttons_trunc :
    ∀ doc i, i ∈ check_buttons doc → i.element.length ≤ 100 := by
  intro doc i hi
  simp only [check_buttons] at hi
  rw [mem_perElem] at hi
  obtain ⟨x, -, hm⟩ := hi
  split at hm
  · rw [List.mem_singleton] at hm; subst hm; exact mk_issue_element_length ..
  · simp at hm

lemma check_language_trunc :
    ∀ doc i, i ∈ check_language doc → i.element.length ≤ 100 := by
  intro doc i hi
  simp only [check_language] at hi
  split at hi
  · split at hi
    · rw [List.mem_singleton] at hi; subst hi; exact mk_issue_element_length ..
    · simp at hi
  · simp at hi

lemma check_aria_usage_trunc :
    ∀ doc i, i ∈ check_aria_usage doc → i.element.length ≤ 100 := by
  intro doc i hi
  simp only [check_aria_usage] at hi
  rw [mem_perElem] at hi
  obtain ⟨x, -, hm⟩ := hi
  split at hm
  · rw [List.mem_singleton] at hm; subst hm; exact mk_issue_element_length ..
  · simp at hm

/-- **C9.** Every issue emitted by `audit_html` carries an `element` snippet
of at most 100 characters (`str(element)[:100]` in `_add_issue`, or the
empty string for page-level issues). -/
theorem audit_issue_element_truncated :
    ∀ st doc i, i ∈ (audit_html st doc).1 → i.element.length ≤ 100 := by
  intro st doc i hi
  have hrc : i ∈ runChecks doc := by
    simpa [audit_html] using hi
  simp only [runChecks, List.mem_append] at hrc
  rcases hrc with ((((((((hc | hc) | hc) | hc) | hc) | hc) | hc) | hc) | hc) | hc
  · simp only [check_images] at hc
    rw [mem_perElem] at hc
    obtain ⟨x, -, hm⟩ := hc
    exact check_image_trunc x i hm
  · exact check_headings_trunc doc i hc
  · simp only [check_links] at hc
    rw [mem_perElem] at hc
    obtain ⟨x, -, hm⟩ := hc
    exact check_link_trunc x i hm
  · exact check_forms_trunc doc i hc
  · exact check_page_structure_trunc doc i hc
  · exact check_semantic_html_trunc doc i hc
  · exact check_tables_trunc doc i hc
  · exact check_buttons_trunc doc i hc
  · exact check_language_trunc doc i hc
  · exact check_aria_usage_trunc doc i hc

/-! ## Character-class and strip/lower lemmas for the parser proofs -/

lemma isPySpace_iff {c : Char} : isPySpace c = true ↔
    (cn c = 32 ∨ cn c = 9 ∨ cn c = 10 ∨ cn c = 13 ∨ cn c = 11 ∨ cn c = 12) := by
  simp [isPySpace]
  tauto

lemma isDigitCh_iff {c : Char} : isDigitCh c = true ↔ (48 ≤ cn c ∧ cn c ≤ 57) := by
  simp [isDigitCh]

lemma isLowHex_iff {c : Char} : isLowHex c = true ↔
    ((48 ≤ cn c ∧ cn c ≤ 57) ∨ (97 ≤ cn c ∧ cn c ≤ 102)) := by
  simp [isLowHex, isDigitCh]

lemma pyLowerChar_id {c : Char} (h : ¬(65 ≤ cn c ∧ cn c ≤ 90)) : pyLowerChar c = c := by
  unfold pyLowerChar
  exact if_neg h

lemma lowHex_lower_id {c : Char} (h : isLowHex c = true) : pyLowerChar c = c := by
  rw [isLowHex_iff] at h
  exact pyLowerChar_id (by omega)

lemma space_lower_id {c : Char} (h : isPySpace c = true) : pyLowerChar c = c := by
  rw [isPySpace_iff] at h
  exact pyLowerChar_id (by omega)

lemma digit_lower_id {c : Char} (h : isDigitCh c = true) : pyLowerChar c = c := by
  rw [isDigitCh_iff] at h
  exact pyLowerChar_id (by omega)

lemma space_not_digit {c : Char} (h : isPySpace c = true) : isDigitCh c = false := by
  rw [isPySpace_iff] at h
  simp only [isDigitCh]
  simp
  omega

lemma lowHex_not_space {c : Char} (h : isLowHex c = true) : isPySpace c = false := by
  rw [isLowHex_iff] at h
  simp only [isPySpace]
  simp
  omega

lemma digit_not_space {c : Char} (h : isDigitCh c = true) : isPySpace c = false := by
  rw [isDigitCh_iff] at h
  simp only [isPySpace]
  simp
  omega

lemma isHexChar_elim {c : Char} (h : isHexChar c = true) :
    isLowHex c = true ∨ c ∈ ['A', 'B', 'C', 'D', 'E', 'F'] := by
  simp only [isHexChar, Bool.or_eq_true] at h
  rcases h with h | h
  · exact Or.inl h
  · right
    simpa using h

lemma hexChar_lower_lowHex {c : Char} (h : isHexChar c = true) :
    isLowHex (pyLowerChar c) = true := by
  rcases isHexChar_elim h with h | h
  · rw [lowHex_lower_id h]; exact h
  · simp only [List.mem_cons, List.not_mem_nil, or_false] at h
    rcases h with rfl | rfl | rfl | rfl | rfl | rfl <;> decide

lemma hexChar_not_space {c : Char} (h : isHexChar c = true) : isPySpace c = false := by
  rcases isHexChar_elim h with h | h
  · exact lowHex_not_space h
  · simp only [List.mem_cons, List.not_mem_nil, or_false] at h
    rcases h with rfl | rfl | rfl | rfl | rfl | rfl <;> decide

lemma lowHex_ne_hash {c : Char} (h : isLowHex c = true) : c ≠ '#' := by
  rw [isLowHex_iff] at h
  intro he
  subst he
  simp [cn] at h

/-! ### strip lemmas -/

lemma lstrip_cons {c : Char} (l : List Char) (h : isPySpace c = false) :
    lstrip (c :: l) = c :: l := by
  simp [lstrip, List.dropWhile_cons, h]

lemma rstrip_cons {c : Char} (l : List Char) (h : isPySpace c = false) :
    rstrip (c :: l) = c :: rstrip l := by
  unfold rstrip
  rw [List.reverse_cons, List.dropWhile_append]
  split
  · case isTrue he =>
    rw [List.isEmpty_iff] at he
    rw [he]
    simp [List.dropWhile_cons, h]
  · simp

lemma pyStrip_cons {c : Char} (l : List Char) (h : isPySpace c = false) :
    pyStrip (c :: l) = c :: rstrip l := by
  unfold pyStrip
  rw [lstrip_cons l h, rstrip_cons l h]

lemma rstrip_append (x y : List Char) (hx : ∀ c ∈ x, isPySpace c = false) :
    rstrip (x ++ y) = x ++ rstrip y := by
  induction x with
  | nil => simp
  | cons c t ih =>
    rw [List.cons_append, rstrip_cons _ (hx c (by simp)),
      ih (fun d hd => hx d (by simp [hd])), List.cons_append]

lemma rstrip_concat (l : List Char) {c : Char} (h : isPySpace c = false) :
    rstrip (l ++ [c]) = l ++ [c] := by
  unfold rstrip
  rw [List.reverse_append]
  simp only [List.reverse_cons, List.reverse_nil, List.nil_append, List.singleton_append]
  rw [List.dropWhile_cons]
  simp [h]

/-! ### named-color lookup misses -/

/-- A string shape that no key of `NAMED_COLORS` has: starting with `#`,
starting with two lower-case hex digits, or starting with `rgb`. -/
def noKeyPrefix (t : List Char) : Bool :=
  match t with
  | [] => false
  | c :: rest =>
    c = '#' ||
    (isLowHex c && (match rest with | d :: _ => isLowHex d | [] => false)) ||
    (c = 'r' && (match rest with | 'g' :: 'b' :: _ => true | _ => false))

lemma keys_not_noKeyPrefix : ∀ p ∈ NAMED_COLORS, noKeyPrefix p.1 = false := by decide

lemma namedLookup_none (t : List Char) (h : noKeyPrefix t = true) :
    namedLookup t = none := by
  unfold namedLookup
  cases hf : NAMED_COLORS.find? (fun p => p.1 == t) with
  | none => rfl
  | some p =>
    exfalso
    have hmem := List.mem_of_find?_eq_some hf
    have hp : (p.1 == t) = true := by simpa using List.find?_some hf
    have heq : p.1 = t := eq_of_beq hp
    have hk := keys_not_noKeyPrefix p hmem
    rw [heq, h] at hk
    simp at hk

/-- Witness for C9: the truncation bound applied to the concrete
alt-less-image error of a one-image document. -/
theorem audit_issue_element_truncated_witness :
    (mk_issue "error" "1.1.1" "Image missing alt attribute"
      (some (Node.elem "img" [] []))
      "Add alt=\"\" for decorative images or descriptive alt text for meaningful images").element.length ≤ 100 :=
  audit_issue_element_truncated ⟨"AA", []⟩ [Node.elem "img" [] []] _ (by decide)

/-! ### hex matching lemmas -/

lemma hex6_cons_of_lowHex {a b c d e f : Char} (rest : List Char)
    (ha : isLowHex a = true) (hb : isLowHex b = true) (hc : isLowHex c = true)
    (hd : isLowHex d = true) (he : isLowHex e = true) (hf : isLowHex f = true) :
    hex6 (a :: b :: c :: d :: e :: f :: rest) =
      some (16 * hexVal a + hexVal b, 16 * hexVal c + hexVal d,
        16 * hexVal e + hexVal f) := by
  simp [hex6, ha, hb, hc, hd, he, hf]

lemma hex6_none_of_head {a : Char} (h : isLowHex a = false) :
    ∀ l, hex6 (a :: l) = none := by
  intro l
  rcases l with _ | ⟨b, _ | ⟨c, _ | ⟨d, _ | ⟨e, _ | ⟨f, t⟩⟩⟩⟩⟩ <;> simp [hex6, h]

lemma shortHex3_none_of_head {a : Char} (h : isLowHex a = false) :
    ∀ l, shortHex3 (a :: l) = none := by
  intro l
  rcases l with _ | ⟨b, _ | ⟨c, _ | ⟨d, t⟩⟩⟩ <;> simp [shortHex3, h]

lemma hexMatch_hash (l : List Char) : hexMatch ('#' :: l) = hex6 l := by
  simp [hexMatch]

lemma hexMatch_not_hash {c : Char} (l : List Char) (h : c ≠ '#') :
    hexMatch (c :: l) = hex6 (c :: l) := by
  unfold hexMatch
  rw [if_neg (by simp [h])]

lemma shortHexMatch_not_hash {c : Char} (l : List Char) (h : c ≠ '#') :
    shortHexMatch (c :: l) = shortHex3 (c :: l) := by
  unfold shortHexMatch
  rw [if_neg (by simp [h])]

/-! ## Claim theorems: the color parser (C10 and C7) -/

/-- **C10.** `parse_color` accepts any string whose first six characters
(after an optional `#`) are hexadecimal digits, decoding exactly those six
digits and ignoring all trailing characters (`re.match` anchors only at the
start).  In particular strings such as `"#aabbccZZ"`, which are not valid
color literals, parse without error instead of raising `ValueError`. -/
theorem parse_color_hex_prefix (pre : Bool) (a b c d e f : Char) (rest : List Char)
    (ha : isHexChar a = true) (hb : isHexChar b = true) (hc : isHexChar c = true)
    (hd : isHexChar d = true) (he : isHexChar e = true) (hf : isHexChar f = true) :
    parse_color (String.mk ((if pre then ['#'] else []) ++
        [a, b, c, d, e, f] ++ rest)) =
      some (16 * hexDigitVal a + hexDigitVal b, 16 * hexDigitVal c + hexDigitVal d,
        16 * hexDigitVal e + hexDigitVal f) := by
  have hla := hexChar_lower_lowHex ha
  have hlb := hexChar_lower_lowHex hb
  have hlc := hexChar_lower_lowHex hc
  have hld := hexChar_lower_lowHex hd
  have hle := hexChar_lower_lowHex he
  have hlf := hexChar_lower_lowHex hf
  have hall : ∀ x ∈ [b, c, d, e, f], isPySpace x = false := by
    intro x hx
    simp only [List.mem_cons, List.not_mem_nil, or_false] at hx
    rcases hx with rfl | rfl | rfl | rfl | rfl
    · exact hexChar_not_space hb
    · exact hexChar_not_space hc
    · exact hexChar_not_space hd
    · exact hexChar_not_space he
    · exact hexChar_not_space hf
  simp only [parse_color]
  cases pre with
  | true =>
    rw [show ((if (true : Bool) then ['#'] else []) ++ [a, b, c, d, e, f] ++ rest) =
      '#' :: (a :: ([b, c, d, e, f] ++ rest)) from by simp]
    rw [pyStrip_cons _ (by decide), rstrip_cons _ (hexChar_not_space ha),
      rstrip_append _ _ hall]
    simp only [pyLower, List.map_cons, List.map_append, List.map_nil,
      List.cons_append, List.nil_append]
    rw [show pyLowerChar '#' = '#' from by decide]
    rw [namedLookup_none _ (by simp [noKeyPrefix]), Option.getD_none]
    rw [hexMatch_hash, hex6_cons_of_lowHex _ hla hlb hlc hld hle hlf]
    rfl
  | false =>
    rw [show ((if (false : Bool) then ['#'] else []) ++ [a, b, c, d, e, f] ++ rest) =
      a :: ([b, c, d, e, f] ++ rest) from by simp]
    rw [pyStrip_cons _ (hexChar_not_space ha), rstrip_append _ _ hall]
    simp only [pyLower, List.map_cons, List.map_append, List.map_nil,
      List.cons_append, List.nil_append]
    rw [namedLookup_none _ (by simp [noKeyPrefix, hla, hlb]), Option.getD_none]
    rw [hexMatch_not_hash _ (lowHex_ne_hash hla),
      hex6_cons_of_lowHex _ hla hlb hlc hld hle hlf]
    rfl

/-! ### lemmas for the `rgb()` branch -/

lemma dropWhile_append_all {p : Char → Bool} (w l : List Char)
    (hw : ∀ c ∈ w, p c = true) : List.dropWhile p (w ++ l) = List.dropWhile p l := by
  induction w with
  | nil => rfl
  | cons c t ih =>
    rw [List.cons_append, List.dropWhile_cons, if_pos (hw c (by simp))]
    exact ih (fun d hd => hw d (by simp [hd]))

lemma takeWhile_append_all {p : Char → Bool} (w l : List Char)
    (hw : ∀ c ∈ w, p c = true) : List.takeWhile p (w ++ l) = w ++ List.takeWhile p l := by
  induction w with
  | nil => rfl
  | cons c t ih =>
    rw [List.cons_append, List.takeWhile_cons, if_pos (hw c (by simp))]
    rw [ih (fun d hd => hw d (by simp [hd])), List.cons_append]

lemma skipWs_cons_not {c : Char} (l : List Char) (h : isPySpace c = false) :
    skipWs (c :: l) = c :: l := by
  simp [skipWs, List.dropWhile_cons, h]

lemma skipWs_ws (w l : List Char) (hw : ∀ c ∈ w, isPySpace c = true) :
    skipWs (w ++ l) = skipWs l :=
  dropWhile_append_all w l hw

lemma skipWs_digits (d l : List Char) (hne : d ≠ [])
    (hd : ∀ c ∈ d, isDigitCh c = true) : skipWs (d ++ l) = d ++ l := by
  obtain ⟨c, t, rfl⟩ := List.exists_cons_of_ne_nil hne
  rw [List.cons_append, skipWs_cons_not _ (digit_not_space (hd c (by simp)))]

/-- The character after a maximal digit run is not a digit. -/
def headNotDigit : List Char → Prop
  | [] => True
  | c :: _ => isDigitCh c = false

lemma headNotDigit_ws_append (w l : List Char) (hw : ∀ c ∈ w, isPySpace c = true)
    (hl : headNotDigit l) : headNotDigit (w ++ l) := by
  cases w with
  | nil => simpa
  | cons c t =>
    show isDigitCh c = false
    exact space_not_digit (hw c (by simp))

lemma takeWhile_digits_nil (l : List Char) (h : headNotDigit l) :
    List.takeWhile isDigitCh l = [] := by
  cases l with
  | nil => rfl
  | cons c t =>
    rw [List.takeWhile_cons, if_neg]
    simp [show isDigitCh c = false from h]

lemma dropWhile_digits_id (l : List Char) (h : headNotDigit l) :
    List.dropWhile isDigitCh l = l := by
  cases l with
  | nil => rfl
  | cons c t =>
    rw [List.dropWhile_cons, if_neg]
    simp [show isDigitCh c = false from h]

lemma digits1_eval (d l : List Char) (hne : d ≠ [])
    (hd : ∀ c ∈ d, isDigitCh c = true) (hl : headNotDigit l) :
    digits1 (d ++ l) = some (natOfDigits d, l) := by
  unfold digits1
  rw [takeWhile_append_all _ _ hd, takeWhile_digits_nil l hl, List.append_nil,
    dropWhile_append_all _ _ hd, dropWhile_digits_id l hl]
  simp [hne]

/-- Full evaluation of the `rgb\s*\(\s*(\d+)\s*,\s*(\d+)\s*,\s*(\d+)\s*\)`
match on a well-shaped input. -/
lemma rgbMatch_eval (w0 w1 w2 w3 w4 w5 w6 d1 d2 d3 : List Char)
    (hw0 : ∀ c ∈ w0, isPySpace c = true) (hw1 : ∀ c ∈ w1, isPySpace c = true)
    (hw2 : ∀ c ∈ w2, isPySpace c = true) (hw3 : ∀ c ∈ w3, isPySpace c = true)
    (hw4 : ∀ c ∈ w4, isPySpace c = true) (hw5 : ∀ c ∈ w5, isPySpace c = true)
    (hw6 : ∀ c ∈ w6, isPySpace c = true)
    (hd1 : d1 ≠ []) (hd1d : ∀ c ∈ d1, isDigitCh c = true)
    (hd2 : d2 ≠ []) (hd2d : ∀ c ∈ d2, isDigitCh c = true)
    (hd3 : d3 ≠ []) (hd3d : ∀ c ∈ d3, isDigitCh c = true) :
    rgbMatch ('r' :: 'g' :: 'b' :: (w0 ++ ('(' :: (w1 ++ (d1 ++ (w2 ++ (',' :: (w3 ++
      (d2 ++ (w4 ++ (',' :: (w5 ++ (d3 ++ (w6 ++ [')'])))))))))))))) = some (natOfDigits
      d1, natOfDigits d2, natOfDigits d3) := by
  have hA : skipWs (w0 ++ ('(' :: (w1 ++ (d1 ++ (w2 ++ (',' :: (w3 ++ (d2 ++ (w4 ++ (','
    :: (w5 ++ (d3 ++ (w6 ++ [')']))))))))))))) = '(' :: (w1 ++ (d1 ++ (w2 ++ (',' :: (w3
    ++ (d2 ++ (w4 ++ (',' :: (w5 ++ (d3 ++ (w6 ++ [')']))))))))))) := by
    rw [skipWs_ws _ _ hw0, skipWs_cons_not _ (by decide)]
  have hB : skipWs (w1 ++ (d1 ++ (w2 ++ (',' :: (w3 ++ (d2 ++ (w4 ++ (',' :: (w5 ++ (d3
    ++ (w6 ++ [')']))))))))))) = d1 ++ (w2 ++ (',' :: (w3 ++ (d2 ++ (w4 ++ (',' :: (w5
    ++ (d3 ++ (w6 ++ [')']))))))))) := by
    rw [skipWs_ws _ _ hw1, skipWs_digits _ _ hd1 hd1d]
  have hD1 : digits1 (d1 ++ (w2 ++ (',' :: (w3 ++ (d2 ++ (w4 ++ (',' :: (w5 ++ (d3 ++
    (w6 ++ [')'])))))))))) = some (natOfDigits d1, w2 ++ (',' :: (w3 ++ (d2 ++ (w4 ++
    (',' :: (w5 ++ (d3 ++ (w6 ++ [')']))))))))) := by
    exact digits1_eval _ _ hd1 hd1d (headNotDigit_ws_append _ _ hw2 (show isDigitCh ',' = false by decide))
  have hC1 : skipWs (w2 ++ (',' :: (w3 ++ (d2 ++ (w4 ++ (',' :: (w5 ++ (d3 ++ (w6 ++
    [')']))))))))) = ',' :: (w3 ++ (d2 ++ (w4 ++ (',' :: (w5 ++ (d3 ++ (w6 ++
    [')']))))))) := by
    rw [skipWs_ws _ _ hw2, skipWs_cons_not _ (by decide)]
  have hB2 : skipWs (w3 ++ (d2 ++ (w4 ++ (',' :: (w5 ++ (d3 ++ (w6 ++ [')']))))))) = d2
    ++ (w4 ++ (',' :: (w5 ++ (d3 ++ (w6 ++ [')']))))) := by
    rw [skipWs_ws _ _ hw3, skipWs_digits _ _ hd2 hd2d]
  have hD2 : digits1 (d2 ++ (w4 ++ (',' :: (w5 ++ (d3 ++ (w6 ++ [')'])))))) = some
    (natOfDigits d2, w4 ++ (',' :: (w5 ++ (d3 ++ (w6 ++ [')']))))) := by
    exact digits1_eval _ _ hd2 hd2d (headNotDigit_ws_append _ _ hw4 (show isDigitCh ',' = false by decide))
  have hC2 : skipWs (w4 ++ (',' :: (w5 ++ (d3 ++ (w6 ++ [')']))))) = ',' :: (w5 ++ (d3
    ++ (w6 ++ [')']))) := by
    rw [skipWs_ws _ _ hw4, skipWs_cons_not _ (by decide)]
  have hB3 : skipWs (w5 ++ (d3 ++ (w6 ++ [')']))) = d3 ++ (w6 ++ [')']) := by
    rw [skipWs_ws _ _ hw5, skipWs_digits _ _ hd3 hd3d]
  have hD3 : digits1 (d3 ++ (w6 ++ [')'])) = some (natOfDigits d3, w6 ++ [')']) := by
    exact digits1_eval _ _ hd3 hd3d (headNotDigit_ws_append _ _ hw6 (show isDigitCh ')' = false by decide))
  have hC3 : skipWs (w6 ++ [')']) = [')'] := by
    rw [skipWs_ws _ _ hw6]; decide
  simp only [rgbMatch, Option.bind_eq_bind, Option.some_bind, expectChar, if_pos,
    hA, hB, hD1, hC1, hB2, hD2, hC2, hB3, hD3, hC3]
  simp

/-! ### map-lower helper lemmas -/

lemma map_lower_ws (w : List Char) (hw : ∀ c ∈ w, isPySpace c = true) :
    List.map pyLowerChar w = w := by
  induction w with
  | nil => rfl
  | cons c t ih =>
    rw [List.map_cons, space_lower_id (hw c (by simp)),
      ih (fun d hd => hw d (by simp [hd]))]

lemma map_lower_digits (d : List Char) (hd : ∀ c ∈ d, isDigitCh c = true) :
    List.map pyLowerChar d = d := by
  induction d with
  | nil => rfl
  | cons c t ih =>
    rw [List.map_cons, digit_lower_id (hd c (by simp)),
      ih (fun x hx => hd x (by simp [hx]))]

lemma pyStrip_sandwich {c c' : Char} (m : List Char) (hc : isPySpace c = false)
    (hc' : isPySpace c' = false) : pyStrip ((c :: m) ++ [c']) = (c :: m) ++ [c'] := by
  rw [List.cons_append, pyStrip_cons _ hc, rstrip_concat _ hc']

/-- **C7.** `parse_color` accepts every string of the form `rgb(r,g,b)` with
arbitrary whitespace around the components and arbitrary non-empty decimal
numerals for the components, and returns exactly the decoded triple — with
no clamping or range check against `[0, 255]` (the components range over all
of `Nat`). -/
theorem parse_color_rgb (w0 w1 w2 w3 w4 w5 w6 d1 d2 d3 : List Char)
    (hw0 : ∀ c ∈ w0, isPySpace c = true) (hw1 : ∀ c ∈ w1, isPySpace c = true)
    (hw2 : ∀ c ∈ w2, isPySpace c = true) (hw3 : ∀ c ∈ w3, isPySpace c = true)
    (hw4 : ∀ c ∈ w4, isPySpace c = true) (hw5 : ∀ c ∈ w5, isPySpace c = true)
    (hw6 : ∀ c ∈ w6, isPySpace c = true)
    (hd1 : d1 ≠ []) (hd1d : ∀ c ∈ d1, isDigitCh c = true)
    (hd2 : d2 ≠ []) (hd2d : ∀ c ∈ d2, isDigitCh c = true)
    (hd3 : d3 ≠ []) (hd3d : ∀ c ∈ d3, isDigitCh c = true) :
    parse_color (String.mk (('r' :: 'g' :: 'b' :: (w0 ++ ('(' :: (w1 ++ (d1 ++ (w2 ++
      (',' :: (w3 ++ (d2 ++ (w4 ++ (',' :: (w5 ++ (d3 ++ w6))))))))))))) ++ [')'])) =
      some (natOfDigits d1, natOfDigits d2, natOfDigits d3) := by
  have er : pyLowerChar 'r' = 'r' := by decide
  have eg : pyLowerChar 'g' = 'g' := by decide
  have eb : pyLowerChar 'b' = 'b' := by decide
  have epo : pyLowerChar '(' = '(' := by decide
  have epc : pyLowerChar ')' = ')' := by decide
  have ecm : pyLowerChar ',' = ',' := by decide
  simp only [parse_color]
  rw [pyStrip_sandwich _ (by decide) (by decide)]
  simp only [List.cons_append, List.append_assoc, List.singleton_append]
  simp only [pyLower, List.map_append, List.map_cons, List.map_nil,
    map_lower_ws w0 hw0, map_lower_ws w1 hw1, map_lower_ws w2 hw2,
    map_lower_ws w3 hw3, map_lower_ws w4 hw4, map_lower_ws w5 hw5,
    map_lower_ws w6 hw6, map_lower_digits d1 hd1d, map_lower_digits d2 hd2d,
    map_lower_digits d3 hd3d, er, eg, eb, epo, epc, ecm]
  rw [namedLookup_none _ (by simp [noKeyPrefix]), Option.getD_none]
  rw [hexMatch_not_hash _ (by decide),
    hex6_none_of_head (by decide : isLowHex 'r' = false),
    shortHexMatch_not_hash _ (by decide),
    shortHex3_none_of_head (by decide : isLowHex 'r' = false)]
  rw [rgbMatch_eval w0 w1 w2 w3 w4 w5 w6 d1 d2 d3 hw0 hw1 hw2 hw3 hw4 hw5 hw6
    hd1 hd1d hd2 hd2d hd3 hd3d]

/-- Witness for C7: `"rgb( 300 , 12,4)"` parses to exactly `(300, 12, 4)`
even though 300 is out of the `[0, 255]` range. -/
theorem parse_color_rgb_witness :
    parse_color "rgb( 300 , 12,4)" = some (300, 12, 4) ∧ 255 < 300 := by
  have h := parse_color_rgb [] [' '] [' '] [' '] [] [] [] ['3', '0', '0'] ['1', '2'] ['4']
    (by decide) (by decide) (by decide) (by decide) (by decide) (by decide) (by decide)
    (by decide) (by decide) (by decide) (by decide) (by decide) (by decide)
  refine ⟨?_, by norm_num⟩
  have hs : "rgb( 300 , 12,4)" =
      String.mk (('r' :: 'g' :: 'b' :: (([] : List Char) ++ ('(' :: ([' '] ++ (['3', '0',
        '0'] ++ ([' '] ++ (',' :: ([' '] ++ (['1', '2'] ++ (([] : List Char) ++ (','
        :: (([] : List Char) ++ (['4'] ++ ([] : List Char)))))))))))))) ++ [')']) := rfl
  rw [hs, h]
  decide

/-- Witness for C10: the concrete example `"#aabbccZZ"` parses as
`#aabbcc`, the trailing `"ZZ"` ignored. -/
theorem parse_color_hex_prefix_witness :
    parse_color "#aabbccZZ" = some (170, 187, 204) := by
  have h := parse_color_hex_prefix true 'a' 'a' 'b' 'b' 'c' 'c' ['Z', 'Z']
    (by decide) (by decide) (by decide) (by decide) (by decide) (by decide)
  rw [show "#aabbccZZ" = String.mk ((if true then ['#'] else []) ++
    ['a', 'a', 'b', 'b', 'c', 'c'] ++ ['Z', 'Z']) from rfl]
  rw [h]
  decide
